import Mathlib

/-!
Shallow embedding of the FairPrice request handler (src/api/analyze.js, with
the scaled `baseMedian` variant from the second source file) and proofs about
it.  JavaScript numbers are modelled by `ℚ`, with a small `JSVal` type adding
`NaN` where the handler can actually produce it (an absent price coerced by
`Number`).  External effects (the BLS index fetch and the Stripe lookups) are
modelled by explicit environments, and the module-level CPI cache by explicit
state passing.
-/

namespace FairPrice

/-- Embeds `clamp(n, a, b) = Math.max(a, Math.min(b, n))` from the source. -/
def clamp (n a b : ℚ) : ℚ := max a (min b n)

/-- Result record of `classify`: `{ ratio, score, label }`. -/
structure ClassifyResult where
  ratio : ℚ
  score : ℚ
  label : String
deriving DecidableEq, Repr

/-- Embeds `classify(price, median)` from the source, on rational inputs
(the handler guarantees a nonzero median on every path that reaches it; the
`NaN`-propagating variant used by the handler is `classifyJS` below). -/
def classify (price median : ℚ) : ClassifyResult :=
  { ratio := price / median
    score := clamp ((price / median - 8/10) / (14/10 - 8/10)) 0 1
    label :=
      if price / median < 9/10 then "under"
      else if price / median > 115/100 then "over"
      else "fair" }

/-- Value of a JavaScript number expression that may be `NaN` (for example
`Number(price)` when the request body has no usable price). -/
inductive JSVal where
  | nan : JSVal
  | num : ℚ → JSVal
deriving DecidableEq, Repr

/-- Division as the handler performs it on a possibly-`NaN` price and a
possibly-`NaN` median (a `NaN` median arises when the category resolves to an
inherited `Object.prototype` member, making `base * localMult` equal `NaN`).
`NaN` on either side propagates.  JavaScript would give `±Infinity` for a
nonzero numerator over the number `0`, but the handler never divides by the
number zero (`handler_localMedian_ne_zero` below), so the `m = 0` branch is
modelled as `NaN` like the `0/0` case. -/
def jsDiv : JSVal → JSVal → JSVal
  | .nan, _ => .nan
  | .num _, .nan => .nan
  | .num q, .num m => if m = 0 then .nan else .num (q / m)

/-- Truthiness test `!Number.isNaN(p) && p > 0` for the coerced price. -/
def jsPos : JSVal → Bool
  | .nan => false
  | .num q => decide (0 < q)

/-- Comparison `x < c` on a possibly-`NaN` value (`NaN < c` is false in JS). -/
def jsLt : JSVal → ℚ → Bool
  | .nan, _ => false
  | .num q, c => decide (q < c)

/-- Comparison `x > c` on a possibly-`NaN` value (`NaN > c` is false in JS). -/
def jsGt : JSVal → ℚ → Bool
  | .nan, _ => false
  | .num q, c => decide (q > c)

/-- Result record of `classify` when the ratio may be `NaN`. -/
structure ClsJS where
  ratio : JSVal
  score : JSVal
  label : String
deriving DecidableEq, Repr

/-- Embeds `classify(price, median)` as called by the handler, where the price
may be `NaN`: `NaN` propagates through the arithmetic (`clamp` of `NaN` is
`NaN` since `Math.max`/`Math.min` propagate it) and both label comparisons are
false on `NaN`, leaving the initial label `"fair"`. -/
def classifyJS (price median : JSVal) : ClsJS :=
  match jsDiv price median with
  | .nan => { ratio := .nan, score := .nan, label := "fair" }
  | .num r =>
      { ratio := .num r
        score := .num (clamp ((r - 8/10) / (14/10 - 8/10)) 0 1)
        label :=
          if r < 9/10 then "under"
          else if r > 115/100 then "over"
          else "fair" }

/-- Embeds `marginEstimate(ratio)`; the ratio may be `NaN`, in which case all
three comparisons are false and the last band is returned, as in JS. -/
def marginEstimate (ratio : JSVal) : String :=
  if jsLt ratio (95/100) then "Low–normal (estimated 10–20%)"
  else if jsLt ratio (11/10) then "Normal (estimated 15–30%)"
  else if jsLt ratio (125/100) then "High (estimated 25–45%)"
  else "Very high (estimated 40–60%+)"

/-- Embeds `tipsFor(label)` from src/api/analyze.js. -/
def tipsFor (label : String) : String :=
  if label = "over" then
    "Ask for itemized breakdown, get 2 more bids, and request lower-cost alternatives."
  else if label = "under" then
    "Confirm scope, exclusions, warranty, and change-order terms to avoid surprise add-ons."
  else
    "Confirm scope + warranty, and ask what’s included/excluded before approving."

/-- Result of a JavaScript property access `obj[key]` on an object literal:
an own data property carrying its value, an `inherited` member reached
through the prototype chain (for an object literal these are the
`Object.prototype` methods and accessors — functions or objects, always
truthy and never nullish), or `missing` for a completely absent key (JS `undefined`). -/
inductive JsProp (α : Type) where
  | own : α → JsProp α
  | inherited : JsProp α
  | missing : JsProp α
deriving DecidableEq, Repr

/-- Own property names of `Object.prototype`, inherited by every object
literal: looking any of these up on the `base` tables yields a truthy,
non-nullish function (or, for `__proto__`, the prototype object). -/
def objectProtoKeys : List String :=
  ["constructor", "hasOwnProperty", "isPrototypeOf", "propertyIsEnumerable",
   "toLocaleString", "toString", "valueOf", "__defineGetter__", "__defineSetter__",
   "__lookupGetter__", "__lookupSetter__", "__proto__"]

/-- Embeds the lookup `base[category]` on the `base` object literal of
`baseMedian(category)` in src/api/analyze.js, including the prototype chain:
an own key yields its number, an `Object.prototype` member is `inherited`
(truthy, non-nullish), anything else is `undefined`. -/
def baseMedianTable (category : String) : JsProp ℚ :=
  if category = "Home services (repairs/visit)" then .own 1800
  else if category = "Home projects (install/remodel)" then .own 4500
  else if category = "Auto (repair/body)" then .own 1400
  else if category = "Medical (out-of-pocket)" then .own 1200
  else if category = "Moving / logistics" then .own 1600
  else if category = "Professional services" then .own 2500
  else if category = "Bills / recurring charges" then .own 350
  else if category = "Other" then .own 2000
  else if objectProtoKeys.contains category then .inherited
  else .missing

/-- Embeds `baseMedian(category)` from src/api/analyze.js:
`base[category] ?? base.Other`.  The nullish coalescing `??` falls back to
`base.Other` (2000) only on `undefined`; an inherited `Object.prototype`
member is returned as-is. -/
def baseMedian (category : String) : JsProp ℚ :=
  match baseMedianTable category with
  | .missing => .own 2000
  | r => r

/-- Row of the scaled baseline table: `{ small, medium, large }`. -/
structure ScaleRow where
  small : ℚ
  medium : ℚ
  large : ℚ
deriving DecidableEq, Repr

/-- Embeds the lookup `base[category]` on the `base` object literal of the
scaled `baseMedian(category, scale)` variant (second source file), including
the prototype chain as in `baseMedianTable`. -/
def baseTableScaled (category : String) : JsProp ScaleRow :=
  if category = "Home services (repairs/visit)" then .own ⟨450, 1800, 8500⟩
  else if category = "Home projects (install/remodel)" then .own ⟨900, 4500, 22000⟩
  else if category = "Auto (repair/body)" then .own ⟨300, 1400, 6000⟩
  else if category = "Medical (out-of-pocket)" then .own ⟨250, 1200, 5000⟩
  else if category = "Moving / logistics" then .own ⟨350, 1600, 7500⟩
  else if category = "Professional services" then .own ⟨500, 2500, 12000⟩
  else if category = "Bills / recurring charges" then .own ⟨120, 350, 1200⟩
  else if category = "Other" then .own ⟨500, 2000, 9000⟩
  else if objectProtoKeys.contains category then .inherited
  else .missing

/-- Embeds the scaled `baseMedian(category, scale)` (second source file).
`cat = base[category] ? category : "Other"` keeps the category whenever the
lookup is truthy — for an own row, but also for an inherited
`Object.prototype` member; in the latter case `base[cat][sc]` and
`base[cat].medium` are both `undefined`, so `base[cat][sc] ||
base[cat].medium` evaluates to `undefined` (the function has no
small/medium/large properties).  For own rows, `sc` falls back to `"medium"`
unless the scale is `"small"` or `"large"`, and `||` returns the medium
column on a falsy (zero) entry. -/
def baseMedianScaled (category scale : String) : JsProp ℚ :=
  match baseTableScaled category with
  | .own row =>
      let sc := if scale = "small" ∨ scale = "large" then scale else "medium"
      let v :=
        if sc = "small" then row.small
        else if sc = "large" then row.large
        else row.medium
      .own (if v = 0 then row.medium else v)
  | .inherited => .missing
  | .missing =>
      let row : ScaleRow := ⟨500, 2000, 9000⟩
      let sc := if scale = "small" ∨ scale = "large" then scale else "medium"
      let v :=
        if sc = "small" then row.small
        else if sc = "large" then row.large
        else row.medium
      .own (if v = 0 then row.medium else v)

/-- Embeds the handler's `base * cpi.localMult`: a number times a number is
their product; an inherited `Object.prototype` function (or `undefined`)
times a number is `NaN` in JavaScript. -/
def jsMul : JsProp ℚ → ℚ → JSVal
  | .own q, m => .num (q * m)
  | .inherited, _ => .nan
  | .missing, _ => .nan

/-- Scaling of a possibly-`NaN` number by a constant (`localMedian * 0.85`
and `localMedian * 1.20`); `NaN` propagates. -/
def jsScale : JSVal → ℚ → JSVal
  | .nan, _ => .nan
  | .num q, c => .num (q * c)

/-- Embeds `regionFromZip(zip)`: dispatch on the first character of the zip
string; an absent zip is modelled by the empty string (both are falsy in
`!zip || zip.length < 1`). -/
def regionFromZip (zip : String) : String :=
  match zip.data with
  | [] => "National"
  | d :: _ =>
      if d = '0' ∨ d = '1' ∨ d = '2' then "Northeast"
      else if d = '3' ∨ d = '4' ∨ d = '5' then "South"
      else if d = '6' ∨ d = '7' then "Midwest"
      else if d = '8' ∨ d = '9' then "West"
      else "National"

/-- Embeds the `CPI_SERIES` object literal: BLS series id per region. -/
structure CPISeriesMap where
  National : String
  Northeast : String
  Midwest : String
  South : String
  West : String

/-- Embeds the `CPI_SERIES` constant from the source. -/
def CPI_SERIES : CPISeriesMap :=
  { National := "CUUR0000SA0"
    Northeast := "CUUR0100SA0"
    Midwest := "CUUR0200SA0"
    South := "CUUR0300SA0"
    West := "CUUR0400SA0" }

/-- Embeds the dynamic access `CPI_SERIES[region]`; `none` models `undefined`
for a key that is not in the object. -/
def cpiSeriesFor (region : String) : Option String :=
  if region = "National" then some CPI_SERIES.National
  else if region = "Northeast" then some CPI_SERIES.Northeast
  else if region = "Midwest" then some CPI_SERIES.Midwest
  else if region = "South" then some CPI_SERIES.South
  else if region = "West" then some CPI_SERIES.West
  else none

/-- Entry of the CPI cache: `{ value, ts }`, where `value` is `null`able. -/
structure CacheEntry where
  value : Option ℚ
  ts : ℕ
deriving DecidableEq, Repr

/-- The module-level `cpiCache` `Map`, modelled as an association list with the
same observable behaviour through `cacheGet`/`cacheSet`. -/
abbrev Cache := List (String × CacheEntry)

/-- Lookup `cpiCache.get(key)`. -/
def cacheGet (c : Cache) (k : String) : Option CacheEntry :=
  (c.find? (fun e => e.1 == k)).map (fun e => e.2)

/-- Update `cpiCache.set(key, v)` (overwrites any previous binding). -/
def cacheSet (c : Cache) (k : String) (v : CacheEntry) : Cache :=
  (k, v) :: c.filter (fun e => e.1 != k)

/-- Embeds `CACHE_MS = 60 * 60 * 1000` (one hour, in milliseconds). -/
def CACHE_MS : ℕ := 60 * 60 * 1000

/-- The body of the BLS response as far as the fetcher inspects it:
`data?.Results?.series` is a list of series, each series carrying its list of
`data` points, and each point summarised by
`point?.value ? Number(point.value) : null` (so `none` models a missing or
falsy `value` field).  A missing `Results`/`series` chain is modelled by the
empty series list. -/
structure BlsJson where
  series : List (List (Option ℚ))
deriving DecidableEq, Repr

/-- Embeds the extraction `data?.Results?.series?.[0]?.data?.[0]` followed by
`point?.value ? Number(point.value) : null`. -/
def extractValue (data : BlsJson) : Option ℚ :=
  ((data.series.head?).bind List.head?).bind (fun v => v)

/-- Outcome of the combined `await fetch(...)` + `await res.json()` step for
one series id: `netError` models a rejected promise at either step (network
failure or a JSON body that does not parse), `success` a parsed JSON body. -/
inductive FetchResult where
  | netError : String → FetchResult
  | success : BlsJson → FetchResult
deriving DecidableEq, Repr

/-- Tests whether the fetch step resolved. -/
def FetchResult.isSuccess : FetchResult → Bool
  | .success _ => true
  | .netError _ => false

/-- Environment of the fetcher: the outcome of the external BLS call per
series id, and the current clock `Date.now()` in milliseconds. -/
structure FetchEnv where
  result : String → FetchResult
  now : ℕ

/-- Mutable state threaded through the fetcher: the CPI cache, plus an
instrumentation counter of external fetches actually issued. -/
structure FetchState where
  cache : Cache
  fetchCount : ℕ
deriving DecidableEq, Repr

/-- Cache key `` `cpi:${seriesId}` ``. -/
def cpiKey (seriesId : String) : String := "cpi:" ++ seriesId

/-- Embeds `fetchLatestCPI(seriesId)`: return a fresh cached value without a
network call; otherwise issue the fetch — a rejected promise propagates as
`Except.error` (there is no `try`/`catch` in the source function), while a
resolved response has its first data point extracted and stored (even when
`null`) with a fresh timestamp.  `env.now - c.ts` is truncated `ℕ`
subtraction, which agrees with the JS `<` test also when the entry's
timestamp is in the future. -/
def fetchLatestCPI (env : FetchEnv) (st : FetchState) (seriesId : String) :
    Except String (Option ℚ) × FetchState :=
  match cacheGet st.cache (cpiKey seriesId) with
  | some c =>
      if env.now - c.ts < CACHE_MS then (Except.ok c.value, st)
      else
        match env.result seriesId with
        | .netError msg => (Except.error msg, { st with fetchCount := st.fetchCount + 1 })
        | .success data =>
            (Except.ok (extractValue data),
             ⟨cacheSet st.cache (cpiKey seriesId) ⟨extractValue data, env.now⟩,
              st.fetchCount + 1⟩)
  | none =>
      match env.result seriesId with
      | .netError msg => (Except.error msg, { st with fetchCount := st.fetchCount + 1 })
      | .success data =>
          (Except.ok (extractValue data),
           ⟨cacheSet st.cache (cpiKey seriesId) ⟨extractValue data, env.now⟩,
            st.fetchCount + 1⟩)

/-- Result record of `cpiMultipliers`. -/
structure Multipliers where
  region : String
  localMult : ℚ
  stateMult : ℚ
  nationalMult : ℚ
  note : String
deriving DecidableEq, Repr

/-- JavaScript truthiness test `!v` on a `number|null` value: `null` and `0`
are falsy. -/
def jsFalsy : Option ℚ → Bool
  | none => true
  | some q => q == 0

/-- Embeds the tail of `cpiMultipliers` after the two fetches resolved: the
`!nat || !reg` guard and the `reg / nat` ratio. -/
def cpiCombine (region : String) (nat reg : Option ℚ) : Multipliers :=
  if jsFalsy nat || jsFalsy reg then
    { region := region, localMult := 1, stateMult := 1, nationalMult := 1
      note := "BLS CPI unavailable; neutral multipliers used." }
  else
    let ratio := reg.getD 0 / nat.getD 0
    { region := region, localMult := ratio, stateMult := ratio, nationalMult := 1
      note := "Adjusted using BLS CPI (region vs national)." }

/-- Series id fetched for the region of a zip:
`CPI_SERIES[region] || CPI_SERIES.National`. -/
def regSeriesId (zip : String) : String :=
  (cpiSeriesFor (regionFromZip zip)).getD CPI_SERIES.National

/-- Embeds `cpiMultipliers(zip)`.  The two `Promise.all` fetches are modelled
sequentially (national first); a rejection of either propagates, as
`Promise.all` rejects when one of its promises rejects. -/
def cpiMultipliers (env : FetchEnv) (st : FetchState) (zip : String) :
    Except String Multipliers × FetchState :=
  match (fetchLatestCPI env st CPI_SERIES.National).1,
        (fetchLatestCPI env (fetchLatestCPI env st CPI_SERIES.National).2
          (regSeriesId zip)).1 with
  | Except.ok nat, Except.ok reg =>
      (Except.ok (cpiCombine (regionFromZip zip) nat reg),
       (fetchLatestCPI env (fetchLatestCPI env st CPI_SERIES.National).2 (regSeriesId zip)).2)
  | Except.error m, _ =>
      (Except.error m,
       (fetchLatestCPI env (fetchLatestCPI env st CPI_SERIES.National).2 (regSeriesId zip)).2)
  | _, Except.error m =>
      (Except.error m,
       (fetchLatestCPI env (fetchLatestCPI env st CPI_SERIES.National).2 (regSeriesId zip)).2)

/-- Checkout session record as consumed from the payments collaborator:
`{ mode, payment_status, status, subscription }`, with `none` modelling a
`null`/absent `subscription` field. -/
structure StripeSession where
  mode : String
  payment_status : String
  status : String
  subscription : Option String
deriving DecidableEq, Repr

/-- Subscription record as consumed: `{ status }`. -/
structure StripeSub where
  status : String
deriving DecidableEq, Repr

/-- Environment of the payments collaborator.  `retrieveSession` models
`stripe.checkout.sessions.retrieve` (which rejects on an unknown id —
`Except.error`); `retrieveSub` models `stripe.subscriptions.retrieve`, with
`ok none` additionally modelling a falsy result (the code guards with
`if (sub && ...)`). -/
structure StripeEnv where
  retrieveSession : String → Except String StripeSession
  retrieveSub : String → Except String (Option StripeSub)

/-- Access result `{ ok, access }`; `access` is absent (`none`) on failure. -/
structure AccessResult where
  ok : Bool
  access : Option String
deriving DecidableEq, Repr

/-- JavaScript truthiness of a possibly-absent string (`undefined`, `null`
and `""` are falsy). -/
def strFalsy : Option String → Bool
  | none => true
  | some s => s == ""

/-- Tests whether the `subscription` field is truthy. -/
def subTruthy : Option String → Bool
  | none => false
  | some s => s != ""

/-- Embeds `verifyAccess(sessionId)`; the second component counts the Stripe
calls issued. -/
def verifyAccess (env : StripeEnv) (sessionId : Option String) :
    Except String AccessResult × ℕ :=
  if strFalsy sessionId then (Except.ok ⟨false, none⟩, 0)
  else
    match env.retrieveSession (sessionId.getD "") with
    | Except.error m => (Except.error m, 1)
    | Except.ok s =>
        if s.mode = "payment" ∧ s.payment_status = "paid" then
          (Except.ok ⟨true, some "once"⟩, 1)
        else if s.mode = "subscription" ∧ s.status = "complete" ∧ subTruthy s.subscription then
          match env.retrieveSub (s.subscription.getD "") with
          | Except.error m => (Except.error m, 2)
          | Except.ok none => (Except.ok ⟨false, none⟩, 2)
          | Except.ok (some sub) =>
              if sub.status = "active" ∨ sub.status = "trialing" then
                (Except.ok ⟨true, some "sub"⟩, 2)
              else (Except.ok ⟨false, none⟩, 2)
        else (Except.ok ⟨false, none⟩, 1)

/-- Embeds `Math.round(x)` on a rational: round half toward positive
infinity. -/
def jsRound (q : ℚ) : ℤ := ⌊q + 1/2⌋

/-- Embeds `Math.round(x)` on a possibly-`NaN` value: `Math.round(NaN)` is
`NaN`. -/
def jsRoundVal : JSVal → JSVal
  | .nan => .nan
  | .num q => .num (jsRound q : ℤ)

/-- Request body after destructuring and price coercion:
`{ mode, session_id, category, zip, price }`.  An absent `mode`, `category` or
`zip` is modelled by `""` (each is used only through comparisons and lookups
on which `undefined` and `""` behave identically in this code: neither equals
`"full"`, neither is a key of the baseline table, and both are falsy for
`regionFromZip`); `price` is the already-coerced `Number(price)`. -/
structure ReqBody where
  mode : String
  session_id : Option String
  category : String
  zip : String
  price : JSVal
deriving Repr

/-- Body used when `req.body` is absent (`req.body || {}`): every field
undefined, so the coerced price is `NaN`. -/
def defaultBody : ReqBody :=
  { mode := "", session_id := none, category := "", zip := "", price := JSVal.nan }

/-- Contents of the `full_report` object.  The two template strings are kept
as their numeric/string components: `market_comparison` as its region,
rounded percentage difference and direction, and `price_range` as the two
rounded dollar bounds, possibly `NaN` (the `toLocaleString` formatting is
elided). -/
structure FullReport where
  market_region : String
  market_diffPct : ℤ
  market_direction : String
  estimated_margin : String
  range_low : JSVal
  range_high : JSVal
  tips : String
  data_note : String
deriving DecidableEq, Repr

/-- Body of a 200 preview response. -/
structure PreviewBody where
  label : String
  score : JSVal
  message : String
deriving DecidableEq, Repr

/-- HTTP response of the handler, by status and body shape. -/
inductive Response where
  | methodNotAllowed : String → Response
  | okPreview : PreviewBody → Response
  | okFull : String → JSVal → Option String → FullReport → Response
  | paymentRequired : String → Response
  | serverError : String → String → Response
deriving DecidableEq, Repr

/-- Environments the handler depends on. -/
structure HandlerEnv where
  fetch : FetchEnv
  stripe : StripeEnv

/-- Observable outcome of one handler invocation: the response sent, the CPI
cache state afterwards, and the number of Stripe calls issued. -/
structure HandlerResult where
  response : Response
  state : FetchState
  stripeCalls : ℕ

/-- Embeds the exported `handler(req, res)` of src/api/analyze.js.  The
`try`/`catch` around the body is reflected by the `Except.error` branches
turning into 500 `serverError` responses carrying the failure message. -/
def handler (env : HandlerEnv) (st : FetchState) (method : String)
    (body : Option ReqBody) : HandlerResult :=
  if method ≠ "POST" then ⟨.methodNotAllowed "POST only", st, 0⟩
  else
    let b := body.getD defaultBody
    let p := b.price
    let havePrice := jsPos p
    if havePrice = false ∧ b.mode ≠ "full" then
      ⟨.okPreview ⟨"needs price", .num (1/2),
          "Add the total quoted price to get an under/fair/over signal."⟩, st, 0⟩
    else
      let cpiR := cpiMultipliers env.fetch st b.zip
      match cpiR.1 with
      | Except.error m => ⟨.serverError "Server error" m, cpiR.2, 0⟩
      | Except.ok cpi =>
          let base := baseMedian b.category
          let localMedian := jsMul base cpi.localMult
          let cls := classifyJS p localMedian
          if b.mode ≠ "full" then
            let msg :=
              if cls.label = "over" then
                "Likely OVER typical pricing for your area. Unlock the full report for benchmarks and negotiation levers."
              else if cls.label = "under" then
                "Likely UNDER typical pricing. Unlock the full report to see what to double-check."
              else
                "Likely FAIR. Unlock the full report for the benchmark range and next steps."
            ⟨.okPreview ⟨cls.label, cls.score, msg⟩, cpiR.2, 0⟩
          else
            let accR := verifyAccess env.stripe b.session_id
            match accR.1 with
            | Except.error m => ⟨.serverError "Server error" m, cpiR.2, accR.2⟩
            | Except.ok access =>
                if access.ok = false then
                  ⟨.paymentRequired "Payment required.", cpiR.2, accR.2⟩
                else
                  let low := jsScale localMedian (85/100)
                  let high := jsScale localMedian (120/100)
                  let diffPct := jsRound (|cpi.localMult - 1| * 100)
                  let direction := if cpi.localMult ≥ 1 then "higher" else "lower"
                  ⟨.okFull cls.label cls.score access.access
                      { market_region := cpi.region
                        market_diffPct := diffPct
                        market_direction := direction
                        estimated_margin := marginEstimate cls.ratio
                        range_low := jsRoundVal low
                        range_high := jsRoundVal high
                        tips := tipsFor cls.label
                        data_note := "Data note: " ++ cpi.note ++
                          " Source: U.S. Bureau of Labor Statistics CPI via Public Data API." },
                    cpiR.2, accR.2⟩

/-- Tests whether a `verifyAccess` outcome is `ok` with `ok: true`. -/
def accessOk (r : Except String AccessResult) : Bool :=
  match r with
  | Except.ok a => a.ok
  | Except.error _ => false

/-- Fetch environment in which every external BLS call rejects. -/
def envNetFail : FetchEnv := ⟨fun _ => FetchResult.netError "fetch failed", 0⟩

/-- Fetch environment in which every call resolves to the same body, at
clock `t`. -/
def successEnv (data : BlsJson) (t : ℕ) : FetchEnv := ⟨fun _ => FetchResult.success data, t⟩

/-- Fetch environment returning 5 for the national series and 0 for every
other series, at clock 0. -/
def envZeroWest : FetchEnv :=
  ⟨fun id => if id = "CUUR0000SA0" then FetchResult.success ⟨[[some 5]]⟩
             else FetchResult.success ⟨[[some 0]]⟩, 0⟩

/-- Fetch environment returning 200 for the national series and 210 for every
other series, at clock 0. -/
def envWest : FetchEnv :=
  ⟨fun id => if id = "CUUR0000SA0" then FetchResult.success ⟨[[some 200]]⟩
             else FetchResult.success ⟨[[some 210]]⟩, 0⟩

/-- Payments environment whose calls all reject; used where no Stripe call
should be reached. -/
def stripeUnused : StripeEnv := ⟨fun _ => Except.error "unused", fun _ => Except.error "unused"⟩

/-! ## Helper lemmas -/

/-- Looking up the key just written returns the written entry. -/
lemma cacheGet_cacheSet_self (c : Cache) (k : String) (v : CacheEntry) :
    cacheGet (cacheSet c k v) k = some v := by
  unfold cacheGet cacheSet
  rw [List.find?_cons_of_pos _ (by simp)]
  rfl

/-- A fresh cache entry is returned as-is, with no state change. -/
lemma fetchLatestCPI_fresh (env : FetchEnv) (st : FetchState) (sid : String) (c : CacheEntry)
    (hc : cacheGet st.cache (cpiKey sid) = some c) (hf : env.now - c.ts < CACHE_MS) :
    fetchLatestCPI env st sid = (Except.ok c.value, st) := by
  unfold fetchLatestCPI
  rw [hc]
  simp [hf]

/-- With no fresh cache entry and a resolving fetch, `fetchLatestCPI` returns
the extracted value and overwrites the entry with a fresh timestamp, issuing
one fetch. -/
lemma fetchLatestCPI_stale_success (env : FetchEnv) (st : FetchState) (sid : String)
    (data : BlsJson)
    (hstale : ∀ c, cacheGet st.cache (cpiKey sid) = some c → ¬(env.now - c.ts < CACHE_MS))
    (h : env.result sid = FetchResult.success data) :
    fetchLatestCPI env st sid =
      (Except.ok (extractValue data),
       ⟨cacheSet st.cache (cpiKey sid) ⟨extractValue data, env.now⟩, st.fetchCount + 1⟩) := by
  unfold fetchLatestCPI
  rcases hc : cacheGet st.cache (cpiKey sid) with _ | c
  · simp only [hc, h]
  · simp only [hc, if_neg (hstale c hc), h]

/-- Every own entry of the unscaled baseline table is positive. -/
lemma baseMedianTable_own_pos (category : String) (q : ℚ)
    (h : baseMedianTable category = JsProp.own q) : 0 < q := by
  unfold baseMedianTable at h
  split_ifs at h <;> cases h <;> norm_num

/-- Whenever the unscaled `baseMedian` returns a number, it is positive. -/
lemma baseMedian_own_pos (category : String) (q : ℚ)
    (h : baseMedian category = JsProp.own q) : 0 < q := by
  unfold baseMedian at h
  rcases ht : baseMedianTable category with p | _ | _ <;> rw [ht] at h
  · cases h
    exact baseMedianTable_own_pos category _ ht
  · cases h
  · cases h
    norm_num

/-- Every own row of the scaled baseline table is componentwise positive. -/
lemma baseTableScaled_own_pos (category : String) (r : ScaleRow)
    (h : baseTableScaled category = JsProp.own r) :
    0 < r.small ∧ 0 < r.medium ∧ 0 < r.large := by
  unfold baseTableScaled at h
  split_ifs at h <;> cases h <;> exact ⟨by norm_num, by norm_num, by norm_num⟩

/-- Whenever the scaled `baseMedian` returns a number, it is positive. -/
lemma baseMedianScaled_own_pos (category scale : String) (q : ℚ)
    (h : baseMedianScaled category scale = JsProp.own q) : 0 < q := by
  unfold baseMedianScaled at h
  rcases ht : baseTableScaled category with r | _ | _ <;> rw [ht] at h
  · obtain ⟨h1, h2, h3⟩ := baseTableScaled_own_pos category r ht
    dsimp only at h
    split_ifs at h <;> cases h <;> linarith
  · cases h
  · dsimp only at h
    split_ifs at h <;> cases h <;> norm_num

/-- The local multiplier produced by `cpiCombine` is never zero: the falsy
guard yields `1`, and otherwise it is a quotient of two nonzero rationals. -/
lemma cpiCombine_localMult_ne_zero (region : String) (nat reg : Option ℚ) :
    (cpiCombine region nat reg).localMult ≠ 0 := by
  unfold cpiCombine
  split_ifs with h
  · norm_num
  · rcases nat with _ | nq <;> rcases reg with _ | rq <;>
      simp_all [jsFalsy, div_eq_zero_iff]

/-- The median the handler passes to `classify` is never the number zero
(it is either a positive-times-nonzero product or `NaN`), which is why
`jsDiv` need not model the `±Infinity` of a JavaScript division by zero. -/
lemma handler_localMedian_ne_zero (category region : String) (nat reg : Option ℚ) :
    jsMul (baseMedian category) (cpiCombine region nat reg).localMult ≠ JSVal.num 0 := by
  rcases hb : baseMedian category with q | _ | _ <;> simp [jsMul]
  exact ⟨(baseMedian_own_pos category q hb).ne',
         cpiCombine_localMult_ne_zero region nat reg⟩

/-- When the external fetch step resolves, `fetchLatestCPI` returns `ok`. -/
lemma fetchLatestCPI_isOk_of_success (env : FetchEnv) (st : FetchState) (sid : String)
    (h : (env.result sid).isSuccess = true) :
    ∃ v, (fetchLatestCPI env st sid).1 = Except.ok v := by
  unfold fetchLatestCPI
  rcases hr : env.result sid with m | data
  · rw [hr] at h; simp [FetchResult.isSuccess] at h
  · cases hc : cacheGet st.cache (cpiKey sid) with
    | none => exact ⟨extractValue data, by simp [hc, hr]⟩
    | some c =>
        by_cases hf : env.now - c.ts < CACHE_MS
        · exact ⟨c.value, by simp [hc, hf]⟩
        · exact ⟨extractValue data, by simp [hc, hf, hr]⟩

/-- When every external fetch resolves, `cpiMultipliers` returns `ok`. -/
lemma cpiMultipliers_isOk (env : FetchEnv) (st : FetchState) (zip : String)
    (h : ∀ id, (env.result id).isSuccess = true) :
    ∃ m, (cpiMultipliers env st zip).1 = Except.ok m := by
  unfold cpiMultipliers
  obtain ⟨v₁, h₁⟩ := fetchLatestCPI_isOk_of_success env st CPI_SERIES.National (h _)
  obtain ⟨v₂, h₂⟩ := fetchLatestCPI_isOk_of_success env
    (fetchLatestCPI env st CPI_SERIES.National).2 (regSeriesId zip) (h _)
  exact ⟨cpiCombine (regionFromZip zip) v₁ v₂, by simp [h₁, h₂]⟩

/-! ## Claims -/

/-- C2: for positive price and median, `classify` computes `ratio =
price/median`, labels `"under"` exactly below `0.9`, `"over"` exactly above
`1.15`, `"fair"` otherwise (both boundaries exclusive), and at `price =
median` yields label `"fair"` with score `1/3`. -/
theorem classify_label_boundaries (price median : ℚ) (hp : 0 < price) (hm : 0 < median) :
    (classify price median).ratio = price / median
    ∧ ((classify price median).label = "under" ↔ price / median < 9/10)
    ∧ ((classify price median).label = "over" ↔ price / median > 115/100)
    ∧ ((classify price median).label = "fair" ↔
        (9/10 ≤ price / median ∧ price / median ≤ 115/100))
    ∧ (price / median = 9/10 → (classify price median).label = "fair")
    ∧ (price / median = 115/100 → (classify price median).label = "fair")
    ∧ (price = median →
        (classify price median).label = "fair" ∧ (classify price median).score = 1/3) := by
  refine ⟨rfl, ?_, ?_, ?_, ?_, ?_, ?_⟩
  · unfold classify
    split_ifs with h1 h2 <;> simp_all <;> linarith
  · unfold classify
    split_ifs with h1 h2 <;> simp_all <;> linarith
  · unfold classify
    split_ifs with h1 h2 <;> simp_all <;>
      first
        | constructor <;> linarith
        | (intro h; linarith)
  · intro h
    unfold classify
    rw [h]
    norm_num
  · intro h
    unfold classify
    rw [h]
    norm_num
  · intro h
    subst h
    unfold classify clamp
    rw [div_self hm.ne']
    norm_num

/-- Witness for C2 at concrete inputs. -/
theorem classify_label_boundaries_witness :
    (classify 1 1).label = "fair" ∧ (classify 1 1).score = 1/3
    ∧ (classify (9/10) 1).label = "fair" ∧ (classify (89/100) 1).label = "under" :=
  ⟨((classify_label_boundaries 1 1 (by norm_num) (by norm_num)).2.2.2.2.2.2 rfl).1,
   ((classify_label_boundaries 1 1 (by norm_num) (by norm_num)).2.2.2.2.2.2 rfl).2,
   (classify_label_boundaries (9/10) 1 (by norm_num) (by norm_num)).2.2.2.2.1 (by norm_num),
   ((classify_label_boundaries (89/100) 1 (by norm_num) (by norm_num)).2.1).mpr (by norm_num)⟩

/-- C7: for positive prices against the same positive median, the `classify`
score is monotone non-decreasing in the ratio, equals `0` for every ratio
`≤ 0.8`, equals `1` for every ratio `≥ 1.4`, and always lies in `[0, 1]`. -/
theorem classify_score_monotone (p₁ p₂ median : ℚ)
    (h₁ : 0 < p₁) (h₂ : 0 < p₂) (hm : 0 < median) :
    (p₁ ≤ p₂ → (classify p₁ median).score ≤ (classify p₂ median).score)
    ∧ (p₁ / median ≤ 8/10 → (classify p₁ median).score = 0)
    ∧ (14/10 ≤ p₁ / median → (classify p₁ median).score = 1)
    ∧ 0 ≤ (classify p₁ median).score ∧ (classify p₁ median).score ≤ 1 := by
  refine ⟨?_, ?_, ?_, ?_, ?_⟩
  · intro hle
    unfold classify clamp
    have hr : p₁ / median ≤ p₂ / median := div_le_div_of_nonneg_right hle hm.le
    have hs : (p₁ / median - 8/10) / (14/10 - 8/10) ≤ (p₂ / median - 8/10) / (14/10 - 8/10) :=
      div_le_div_of_nonneg_right (by linarith) (by norm_num)
    exact max_le_max le_rfl (min_le_min le_rfl hs)
  · intro h
    unfold classify clamp
    have hx : (p₁ / median - 8/10) / (14/10 - 8/10) ≤ 0 := by
      apply div_nonpos_of_nonpos_of_nonneg <;> linarith
    rw [min_eq_right (by linarith), max_eq_left hx]
  · intro h
    unfold classify clamp
    have hx : (1:ℚ) ≤ (p₁ / median - 8/10) / (14/10 - 8/10) := by
      rw [le_div_iff (by norm_num)]
      linarith
    rw [min_eq_left hx, max_eq_right (by norm_num)]
  · exact le_max_left 0 _
  · exact max_le (by norm_num) (min_le_left 1 _)

/-- Witness for C7 at concrete inputs. -/
theorem classify_score_monotone_witness :
    (classify 1 2).score ≤ (classify 3 2).score
    ∧ (classify 1 2).score = 0 ∧ (classify 3 2).score = 1 :=
  ⟨(classify_score_monotone 1 3 2 (by norm_num) (by norm_num) (by norm_num)).1 (by norm_num),
   (classify_score_monotone 1 3 2 (by norm_num) (by norm_num) (by norm_num)).2.1 (by norm_num),
   (classify_score_monotone 3 1 2 (by norm_num) (by norm_num) (by norm_num)).2.2.1 (by norm_num)⟩

/-- C9 counterexample: `"toString"` is an inherited `Object.prototype`
member, so `base["toString"]` is truthy and non-nullish.  The unscaled
`baseMedian` returns the inherited function rather than a positive number
(`??` does not fall back to Other), and the scaled variant returns
`undefined`: `cat` stays `"toString"` and `base[cat][sc] ||
base[cat].medium` is `undefined || undefined`. -/
theorem baseMedian_proto_counterexample :
    baseMedian "toString" = JsProp.inherited
    ∧ baseMedianScaled "toString" "medium" = JsProp.missing := ⟨rfl, rfl⟩

/-- C9 as amended: for every category that is not an inherited
`Object.prototype` member, both `baseMedian` variants return a defined
positive number — a category absent from the table falls back to the
`"Other"` row, and an unrecognized scale falls back to `"medium"`; but for
the finitely many `Object.prototype` property names, the lookup is truthy,
so the unscaled variant returns the inherited member (not a number) and the
scaled variant returns `undefined`.  Neither variant throws. -/
theorem baseMedian_total_positive (category scale : String) :
    (baseMedianTable category ≠ JsProp.inherited →
      ∃ q : ℚ, 0 < q ∧ baseMedian category = JsProp.own q)
    ∧ (baseTableScaled category ≠ JsProp.inherited →
      ∃ q : ℚ, 0 < q ∧ baseMedianScaled category scale = JsProp.own q)
    ∧ (baseMedianTable category = JsProp.missing → baseMedian category = JsProp.own 2000)
    ∧ (baseTableScaled category = JsProp.missing →
        baseMedianScaled category scale = baseMedianScaled "Other" scale)
    ∧ (scale ≠ "small" → scale ≠ "large" →
        baseMedianScaled category scale = baseMedianScaled category "medium")
    ∧ (baseMedianTable category = JsProp.inherited →
        baseMedian category = JsProp.inherited)
    ∧ (baseTableScaled category = JsProp.inherited →
        baseMedianScaled category scale = JsProp.missing) := by
  refine ⟨?_, ?_, ?_, ?_, ?_, ?_, ?_⟩
  · intro h
    rcases ht : baseMedianTable category with p | _ | _
    · exact ⟨p, baseMedianTable_own_pos category p ht, by unfold baseMedian; rw [ht]⟩
    · exact absurd ht h
    · exact ⟨2000, by norm_num, by unfold baseMedian; rw [ht]⟩
  · intro h
    have hex : ∃ q, baseMedianScaled category scale = JsProp.own q := by
      unfold baseMedianScaled
      rcases ht : baseTableScaled category with r | _ | _
      · exact ⟨_, rfl⟩
      · exact absurd ht h
      · exact ⟨_, rfl⟩
    obtain ⟨q, hq⟩ := hex
    exact ⟨q, baseMedianScaled_own_pos category scale q hq, hq⟩
  · intro h
    unfold baseMedian
    rw [h]
  · intro h
    have ho : baseTableScaled "Other" = JsProp.own ⟨500, 2000, 9000⟩ := by decide
    unfold baseMedianScaled
    rw [h, ho]
  · intro h1 h2
    rcases ht : baseTableScaled category with r | _ | _ <;>
      simp [baseMedianScaled, ht, h1, h2]
  · intro h
    unfold baseMedian
    rw [h]
  · intro h
    unfold baseMedianScaled
    rw [h]

/-- Witness for C9's amended theorem at an unrecognized category/scale and at
an inherited `Object.prototype` name. -/
theorem baseMedian_total_positive_witness :
    baseMedian "zzz" = JsProp.own 2000
    ∧ (0 : ℚ) < 2000
    ∧ baseMedianScaled "zzz" "huge" = baseMedianScaled "Other" "medium"
    ∧ baseMedianScaled "valueOf" "large" = JsProp.missing :=
  ⟨(baseMedian_total_positive "zzz" "huge").2.2.1 (by decide),
   by norm_num,
   ((baseMedian_total_positive "zzz" "huge").2.2.2.1 (by decide)).trans
     ((baseMedian_total_positive "Other" "huge").2.2.2.2.1 (by decide) (by decide)),
   (baseMedian_total_positive "valueOf" "large").2.2.2.2.2.2 (by decide)⟩

/-- C3: `verifyAccess` is `ok` exactly for a paid one-time payment session or
a complete subscription-mode session whose linked subscription (second
lookup) is active or trialing; an absent (falsy) session id is rejected
immediately with no external call. -/
theorem verifyAccess_spec (env : StripeEnv) (sid : Option String) :
    (strFalsy sid = true → verifyAccess env sid = (Except.ok ⟨false, none⟩, 0))
    ∧ (∀ idStr s, sid = some idStr → idStr ≠ "" →
        env.retrieveSession idStr = Except.ok s →
        (accessOk (verifyAccess env sid).1 = true ↔
          ((s.mode = "payment" ∧ s.payment_status = "paid")
           ∨ (s.mode = "subscription" ∧ s.status = "complete" ∧
              ∃ subId sub, s.subscription = some subId ∧ subId ≠ "" ∧
                env.retrieveSub subId = Except.ok (some sub) ∧
                (sub.status = "active" ∨ sub.status = "trialing"))))) := by
  constructor
  · intro h
    unfold verifyAccess
    simp [h]
  · intro idStr s hsid hne hsess
    subst hsid
    have hsf : strFalsy (some idStr) = false := by simp [strFalsy, hne]
    unfold verifyAccess
    rw [hsf]
    simp only [Bool.false_eq_true, if_false, Option.getD_some, hsess]
    by_cases hpay : s.mode = "payment" ∧ s.payment_status = "paid"
    · simp [hpay, accessOk]
    · rw [if_neg hpay]
      by_cases hsub : s.mode = "subscription" ∧ s.status = "complete" ∧ subTruthy s.subscription = true
      · obtain ⟨hm, hst, htr⟩ := hsub
        rcases hss : s.subscription with _ | subId
        · rw [hss] at htr
          simp [subTruthy] at htr
        · have hne2 : subId ≠ "" := by
            rw [hss] at htr
            simpa [subTruthy] using htr
          rw [if_pos ⟨hm, hst, show subTruthy (some subId) = true by simp [subTruthy, hne2]⟩]
          simp only [Option.getD_some]
          rcases hrs : env.retrieveSub subId with m | _ | sub
          · simp only [accessOk, Bool.false_eq_true, false_iff]
            rintro (⟨h1, h2⟩ | ⟨h1, h2, subId', sub', hss', hne', hrs', hstat⟩)
            · exact hpay ⟨h1, h2⟩
            · obtain rfl : subId = subId' := Option.some_injective _ hss'
              rw [hrs] at hrs'
              cases hrs'
          · simp only [accessOk, Bool.false_eq_true, false_iff]
            rintro (⟨h1, h2⟩ | ⟨h1, h2, subId', sub', hss', hne', hrs', hstat⟩)
            · exact hpay ⟨h1, h2⟩
            · obtain rfl : subId = subId' := Option.some_injective _ hss'
              rw [hrs] at hrs'
              cases hrs'
          · dsimp only
            by_cases hstat : sub.status = "active" ∨ sub.status = "trialing"
            · rw [if_pos hstat]
              simp only [accessOk, true_iff]
              exact Or.inr ⟨hm, hst, subId, sub, rfl, hne2, hrs, hstat⟩
            · rw [if_neg hstat]
              simp only [accessOk, Bool.false_eq_true, false_iff]
              rintro (⟨h1, h2⟩ | ⟨h1, h2, subId', sub', hss', hne', hrs', hstat'⟩)
              · exact hpay ⟨h1, h2⟩
              · obtain rfl : subId = subId' := Option.some_injective _ hss'
                rw [hrs] at hrs'
                obtain rfl : sub = sub' := by
                  cases hrs'
                  rfl
                exact hstat hstat'
      · rw [if_neg hsub]
        simp only [accessOk, Bool.false_eq_true, false_iff]
        rintro (⟨h1, h2⟩ | ⟨h1, h2, subId', sub', hss', hne', hrs', hstat'⟩)
        · exact hpay ⟨h1, h2⟩
        · exact hsub ⟨h1, h2, by simp [subTruthy, hss', hne']⟩

/-- Witness for C3: a paid one-time session is accepted, and an absent id is
rejected with no external call. -/
theorem verifyAccess_spec_witness :
    accessOk (verifyAccess
        ⟨fun _ => Except.ok ⟨"payment", "paid", "open", none⟩, fun _ => Except.error "unused"⟩
        (some "cs_1")).1 = true
    ∧ verifyAccess
        ⟨fun _ => Except.ok ⟨"payment", "paid", "open", none⟩, fun _ => Except.error "unused"⟩
        none = (Except.ok ⟨false, none⟩, 0) :=
  ⟨((verifyAccess_spec
      ⟨fun _ => Except.ok ⟨"payment", "paid", "open", none⟩, fun _ => Except.error "unused"⟩
      (some "cs_1")).2 "cs_1" ⟨"payment", "paid", "open", none⟩ rfl (by decide) rfl).mpr
      (Or.inl ⟨rfl, rfl⟩),
   (verifyAccess_spec
      ⟨fun _ => Except.ok ⟨"payment", "paid", "open", none⟩, fun _ => Except.error "unused"⟩
      none).1 rfl⟩

/-- C5: starting from a cache with no fresh entry for the series, a first
`fetchLatestCPI` call with a resolving fetch issues one external fetch and
stores the extracted value (even `null`) with the call's timestamp; a second
call within the freshness window returns that cached value — including a
cached `null` — with no further fetch and the state unchanged; a call at or
after expiry issues a new fetch and overwrites the entry with the newly
extracted value (even `null`) and a fresh timestamp. -/
theorem fetchLatestCPI_cache_spec (env₁ env₂ : FetchEnv) (st : FetchState) (sid : String)
    (data₁ : BlsJson)
    (hstale : ∀ c, cacheGet st.cache (cpiKey sid) = some c → ¬(env₁.now - c.ts < CACHE_MS))
    (h₁ : env₁.result sid = FetchResult.success data₁) :
    (fetchLatestCPI env₁ st sid).1 = Except.ok (extractValue data₁)
    ∧ (fetchLatestCPI env₁ st sid).2.fetchCount = st.fetchCount + 1
    ∧ cacheGet (fetchLatestCPI env₁ st sid).2.cache (cpiKey sid)
        = some ⟨extractValue data₁, env₁.now⟩
    ∧ (env₂.now - env₁.now < CACHE_MS →
        fetchLatestCPI env₂ (fetchLatestCPI env₁ st sid).2 sid
          = (Except.ok (extractValue data₁), (fetchLatestCPI env₁ st sid).2))
    ∧ (∀ data₂, ¬(env₂.now - env₁.now < CACHE_MS) →
        env₂.result sid = FetchResult.success data₂ →
        fetchLatestCPI env₂ (fetchLatestCPI env₁ st sid).2 sid
          = (Except.ok (extractValue data₂),
             ⟨cacheSet (fetchLatestCPI env₁ st sid).2.cache (cpiKey sid)
                ⟨extractValue data₂, env₂.now⟩,
              (fetchLatestCPI env₁ st sid).2.fetchCount + 1⟩)) := by
  have hfirst := fetchLatestCPI_stale_success env₁ st sid data₁ hstale h₁
  have hget : cacheGet (fetchLatestCPI env₁ st sid).2.cache (cpiKey sid)
      = some ⟨extractValue data₁, env₁.now⟩ := by
    rw [hfirst]
    exact cacheGet_cacheSet_self _ _ _
  refine ⟨by rw [hfirst], by rw [hfirst], hget, ?_, ?_⟩
  · intro hin
    exact fetchLatestCPI_fresh env₂ _ sid _ hget hin
  · intro data₂ hout h₂
    have := fetchLatestCPI_stale_success env₂ (fetchLatestCPI env₁ st sid).2 sid data₂
      (by intro c hc; rw [hget] at hc; cases hc; exact hout) h₂
    exact this

/-- Witness for C5: a null first value is cached and served from the cache
within the hour (second component unchanged, one fetch total), and refetched
after the hour. -/
theorem fetchLatestCPI_cache_spec_witness :
    fetchLatestCPI (successEnv ⟨[]⟩ 1500)
        (fetchLatestCPI (successEnv ⟨[]⟩ 1000) ⟨[], 0⟩ "CUUR0000SA0").2 "CUUR0000SA0"
      = (Except.ok none, (fetchLatestCPI (successEnv ⟨[]⟩ 1000) ⟨[], 0⟩ "CUUR0000SA0").2)
    ∧ (fetchLatestCPI (successEnv ⟨[]⟩ 1000) ⟨[], 0⟩ "CUUR0000SA0").2.fetchCount = 1
    ∧ (fetchLatestCPI (successEnv ⟨[[some 300]]⟩ (1000 + CACHE_MS))
        (fetchLatestCPI (successEnv ⟨[]⟩ 1000) ⟨[], 0⟩ "CUUR0000SA0").2 "CUUR0000SA0").1
      = Except.ok (some 300) := by
  have hstale : ∀ c, cacheGet (⟨[], 0⟩ : FetchState).cache (cpiKey "CUUR0000SA0") = some c →
      ¬((successEnv ⟨[]⟩ 1000).now - c.ts < CACHE_MS) := by
    intro c hc
    simp [cacheGet, List.find?] at hc
  refine ⟨?_, ?_, ?_⟩
  · exact (fetchLatestCPI_cache_spec (successEnv ⟨[]⟩ 1000) (successEnv ⟨[]⟩ 1500)
      ⟨[], 0⟩ "CUUR0000SA0" ⟨[]⟩ hstale rfl).2.2.2.1 (by norm_num [successEnv, CACHE_MS])
  · exact (fetchLatestCPI_cache_spec (successEnv ⟨[]⟩ 1000) (successEnv ⟨[]⟩ 1500)
      ⟨[], 0⟩ "CUUR0000SA0" ⟨[]⟩ hstale rfl).2.1
  · rw [(fetchLatestCPI_cache_spec (successEnv ⟨[]⟩ 1000)
      (successEnv ⟨[[some 300]]⟩ (1000 + CACHE_MS)) ⟨[], 0⟩ "CUUR0000SA0" ⟨[]⟩ hstale
      rfl).2.2.2.2 ⟨[[some 300]]⟩ (by norm_num [successEnv]) rfl]
    rfl

/-- C1 counterexample: with every external call rejecting, `fetchLatestCPI`
propagates the exception to its caller instead of yielding `null`, and the
handler then answers a 500 server error instead of degrading to neutral
multipliers. -/
theorem fetchLatestCPI_raises_counterexample :
    (fetchLatestCPI envNetFail ⟨[], 0⟩ "CUUR0000SA0").1 = Except.error "fetch failed"
    ∧ (handler ⟨envNetFail, stripeUnused⟩ ⟨[], 0⟩ "POST"
        (some ⟨"preview", none, "Other", "", JSVal.num 100⟩)).response
      = Response.serverError "Server error" "fetch failed" := by
  constructor <;> rfl

/-- C1 as amended: `fetchLatestCPI` raises no exception whenever the HTTP
response resolves — a missing data structure then yields `Except.ok none`
(null), stored in the cache — but a rejected network or JSON-parse promise
propagates as an exception, and the handler then returns a 500 error
response; when every fetch resolves, a preview request is never answered
with a server error. -/
theorem fetchLatestCPI_ok_of_resolved (env : HandlerEnv) (st : FetchState) (sid : String)
    (b : ReqBody) :
    ((env.fetch.result sid).isSuccess = true →
      ∃ v, (fetchLatestCPI env.fetch st sid).1 = Except.ok v)
    ∧ (∀ data, env.fetch.result sid = FetchResult.success data →
        (∀ c, cacheGet st.cache (cpiKey sid) = some c →
          ¬(env.fetch.now - c.ts < CACHE_MS)) →
        (fetchLatestCPI env.fetch st sid).1 = Except.ok (extractValue data))
    ∧ ((∀ id, (env.fetch.result id).isSuccess = true) → b.mode ≠ "full" →
        ∀ e d, (handler env st "POST" (some b)).response ≠ Response.serverError e d) := by
  refine ⟨fetchLatestCPI_isOk_of_success env.fetch st sid, ?_, ?_⟩
  · intro data hres hstale
    rw [fetchLatestCPI_stale_success env.fetch st sid data hstale hres]
  · intro hall hmode e d
    unfold handler
    rw [if_neg (by simp)]
    simp only [Option.getD_some]
    by_cases hneed : jsPos b.price = false ∧ b.mode ≠ "full"
    · rw [if_pos hneed]
      simp
    · rw [if_neg hneed]
      obtain ⟨m, hm⟩ := cpiMultipliers_isOk env.fetch st b.zip hall
      rw [hm]
      simp only
      rw [if_pos hmode]
      simp

/-- Witness for C1's amended theorem at a concrete resolved environment. -/
theorem fetchLatestCPI_ok_of_resolved_witness :
    (fetchLatestCPI (successEnv ⟨[]⟩ 0) ⟨[], 0⟩ "CUUR0000SA0").1 = Except.ok none
    ∧ (handler ⟨successEnv ⟨[]⟩ 0, stripeUnused⟩ ⟨[], 0⟩ "POST"
        (some ⟨"preview", none, "Other", "", JSVal.num 100⟩)).response
      ≠ Response.serverError "Server error" "fetch failed" :=
  ⟨(fetchLatestCPI_ok_of_resolved ⟨successEnv ⟨[]⟩ 0, stripeUnused⟩ ⟨[], 0⟩ "CUUR0000SA0"
      ⟨"preview", none, "Other", "", JSVal.num 100⟩).2.1 ⟨[]⟩ rfl
      (by intro c hc; simp [cacheGet, List.find?] at hc),
   (fetchLatestCPI_ok_of_resolved ⟨successEnv ⟨[]⟩ 0, stripeUnused⟩ ⟨[], 0⟩ "CUUR0000SA0"
      ⟨"preview", none, "Other", "", JSVal.num 100⟩).2.2 (fun _ => rfl) (by decide)
      "Server error" "fetch failed"⟩

/-- C8 counterexample: with a national value of 5 and a regional value of 0 —
both fetched values available, neither `null` — `cpiMultipliers` returns the
neutral multipliers (localMult = 1) rather than `regional/national = 0/5 = 0`,
because the code's truthiness guard `!nat || !reg` also fires on a zero
value. -/
theorem cpiMultipliers_zero_counterexample :
    (cpiMultipliers envZeroWest ⟨[], 0⟩ "9").1
      = Except.ok ⟨"West", 1, 1, 1, "BLS CPI unavailable; neutral multipliers used."⟩
    ∧ (0 : ℚ) / 5 = 0
    ∧ (1 : ℚ) ≠ 0 := by
  refine ⟨rfl, by norm_num, by norm_num⟩

/-- C8 as amended: the result of `cpiMultipliers` always satisfies
`nationalMult = 1` and `stateMult = localMult`; when either fetched value is
unavailable **or zero** (both are falsy to the guard) all three multipliers
are 1.0 with the unavailability note, and otherwise (both present and
nonzero) `localMult = stateMult = regional/national`. -/
theorem cpiMultipliers_invariants (env : FetchEnv) (st : FetchState) (zip : String)
    (nat reg : Option ℚ)
    (hnat : (fetchLatestCPI env st CPI_SERIES.National).1 = Except.ok nat)
    (hreg : (fetchLatestCPI env (fetchLatestCPI env st CPI_SERIES.National).2
        (regSeriesId zip)).1 = Except.ok reg) :
    (cpiMultipliers env st zip).1 = Except.ok (cpiCombine (regionFromZip zip) nat reg)
    ∧ (cpiCombine (regionFromZip zip) nat reg).nationalMult = 1
    ∧ (cpiCombine (regionFromZip zip) nat reg).stateMult
        = (cpiCombine (regionFromZip zip) nat reg).localMult
    ∧ ((jsFalsy nat = true ∨ jsFalsy reg = true) →
        cpiCombine (regionFromZip zip) nat reg =
          ⟨regionFromZip zip, 1, 1, 1, "BLS CPI unavailable; neutral multipliers used."⟩)
    ∧ (∀ nq rq, nat = some nq → reg = some rq → nq ≠ 0 → rq ≠ 0 →
        (cpiCombine (regionFromZip zip) nat reg).localMult = rq / nq
        ∧ (cpiCombine (regionFromZip zip) nat reg).stateMult = rq / nq) := by
  refine ⟨?_, ?_, ?_, ?_, ?_⟩
  · unfold cpiMultipliers
    rw [hnat, hreg]
  · unfold cpiCombine
    split_ifs <;> rfl
  · unfold cpiCombine
    split_ifs <;> rfl
  · intro h
    unfold cpiCombine
    rw [if_pos (by rcases h with h | h <;> simp [h])]
  · intro nq rq hn hr hnq hrq
    subst hn
    subst hr
    unfold cpiCombine
    rw [if_neg (by simp [jsFalsy, hnq, hrq])]
    exact ⟨rfl, rfl⟩

/-- Witness for C8's amended theorem: national 200, regional 210 gives
local and state multipliers 210/200 with national 1. -/
theorem cpiMultipliers_invariants_witness :
    (cpiMultipliers envWest ⟨[], 0⟩ "9").1
      = Except.ok (cpiCombine (regionFromZip "9") (some 200) (some 210))
    ∧ (cpiCombine (regionFromZip "9") (some 200) (some 210)).localMult = 210 / 200
    ∧ (cpiCombine (regionFromZip "9") (some 200) (some 210)).nationalMult = 1 :=
  ⟨(cpiMultipliers_invariants envWest ⟨[], 0⟩ "9" (some 200) (some 210) rfl rfl).1,
   ((cpiMultipliers_invariants envWest ⟨[], 0⟩ "9" (some 200) (some 210)
      rfl rfl).2.2.2.2 200 210 rfl rfl (by norm_num) (by norm_num)).1,
   (cpiMultipliers_invariants envWest ⟨[], 0⟩ "9" (some 200) (some 210) rfl rfl).2.1⟩

/-- C10: a fetched index value of exactly 0 makes `cpiMultipliers` behave
exactly as if the value were unavailable: neutral multipliers with the
unavailability note, and `cpiCombine` cannot distinguish `some 0` from
`none` in either argument. -/
theorem cpiMultipliers_zero_as_unavailable (env : FetchEnv) (st : FetchState) (zip : String)
    (nat reg : Option ℚ)
    (hnat : (fetchLatestCPI env st CPI_SERIES.National).1 = Except.ok nat)
    (hreg : (fetchLatestCPI env (fetchLatestCPI env st CPI_SERIES.National).2
        (regSeriesId zip)).1 = Except.ok reg)
    (hz : nat = some 0 ∨ reg = some 0) :
    (cpiMultipliers env st zip).1
      = Except.ok ⟨regionFromZip zip, 1, 1, 1, "BLS CPI unavailable; neutral multipliers used."⟩
    ∧ (∀ r v, cpiCombine r (some 0) v = cpiCombine r none v
        ∧ cpiCombine r v (some 0) = cpiCombine r v none) := by
  constructor
  · unfold cpiMultipliers
    rw [hnat, hreg]
    dsimp only
    unfold cpiCombine
    rw [if_pos (by rcases hz with h | h <;> simp [h, jsFalsy])]
  · intro r v
    unfold cpiCombine
    constructor <;> simp [jsFalsy]

/-- Witness for C10: a zero regional reading yields the neutral result. -/
theorem cpiMultipliers_zero_as_unavailable_witness :
    (cpiMultipliers envZeroWest ⟨[], 0⟩ "8").1
      = Except.ok ⟨regionFromZip "8", 1, 1, 1, "BLS CPI unavailable; neutral multipliers used."⟩ :=
  (cpiMultipliers_zero_as_unavailable envZeroWest ⟨[], 0⟩ "8" (some 5) (some 0)
    rfl rfl (Or.inr rfl)).1

/-- C4 counterexample: a full-mode request with an absent session id — a case
squarely inside the claim — is answered with a 500 server error, not the
claimed 403, when the BLS index fetch rejects: the exception propagates from
`fetchLatestCPI` through the handler's outer catch before the access check is
ever reached (no Stripe call is made). -/
theorem handler_payment_gate_counterexample :
    (handler ⟨envNetFail, stripeUnused⟩ ⟨[], 0⟩ "POST"
        (some ⟨"full", none, "Other", "", JSVal.num 100⟩)).response
      = Response.serverError "Server error" "fetch failed"
    ∧ (handler ⟨envNetFail, stripeUnused⟩ ⟨[], 0⟩ "POST"
        (some ⟨"full", none, "Other", "", JSVal.num 100⟩)).response
      ≠ Response.paymentRequired "Payment required."
    ∧ (handler ⟨envNetFail, stripeUnused⟩ ⟨[], 0⟩ "POST"
        (some ⟨"full", none, "Other", "", JSVal.num 100⟩)).stripeCalls = 0 :=
  ⟨rfl, by decide, rfl⟩

/-- C4 as amended: a full-mode request whose session id is absent or whose
verification resolves not-ok is answered with the 403 payment-required
failure — whose body carries no full-report contents; range, margin,
comparison and tips are neither computed into the response nor returned —
provided the index-fetch step resolved; when the index fetch (or the Stripe
retrieval) rejects instead, the handler returns a 500 server error, as the
counterexample shows. -/
theorem handler_payment_gate (env : HandlerEnv) (st : FetchState) (b : ReqBody)
    (m : Multipliers)
    (hmode : b.mode = "full")
    (hcpi : (cpiMultipliers env.fetch st b.zip).1 = Except.ok m)
    (hacc : (verifyAccess env.stripe b.session_id).1 = Except.ok ⟨false, none⟩) :
    handler env st "POST" (some b) =
      ⟨Response.paymentRequired "Payment required.",
       (cpiMultipliers env.fetch st b.zip).2,
       (verifyAccess env.stripe b.session_id).2⟩ := by
  unfold handler
  rw [if_neg (by simp)]
  simp only [Option.getD_some]
  rw [if_neg (by rw [hmode]; simp), hcpi]
  simp only
  rw [if_neg (by rw [hmode]; simp), hacc]
  rfl

/-- Witness for C4: full mode with an absent session id is answered 403. -/
theorem handler_payment_gate_witness :
    handler ⟨successEnv ⟨[]⟩ 0, stripeUnused⟩ ⟨[], 0⟩ "POST"
        (some ⟨"full", none, "Other", "", JSVal.num 100⟩) =
      ⟨Response.paymentRequired "Payment required.",
       (cpiMultipliers (successEnv ⟨[]⟩ 0) ⟨[], 0⟩ "").2,
       (verifyAccess stripeUnused none).2⟩ :=
  handler_payment_gate ⟨successEnv ⟨[]⟩ 0, stripeUnused⟩ ⟨[], 0⟩
    ⟨"full", none, "Other", "", JSVal.num 100⟩
    ⟨"National", 1, 1, 1, "BLS CPI unavailable; neutral multipliers used."⟩
    rfl rfl rfl

/-- C6: a request whose price is missing or does not coerce to a positive
number, with mode ≠ "full", short-circuits to the 200 "needs price" response
with score 0.5, leaving the cache untouched (no index fetch) and issuing no
payment check, regardless of all other fields. -/
theorem handler_needs_price (env : HandlerEnv) (st : FetchState) (b : ReqBody)
    (hp : jsPos b.price = false) (hmode : b.mode ≠ "full") :
    handler env st "POST" (some b) =
      ⟨Response.okPreview ⟨"needs price", JSVal.num (1/2),
          "Add the total quoted price to get an under/fair/over signal."⟩, st, 0⟩ := by
  unfold handler
  rw [if_neg (by simp)]
  simp only [Option.getD_some]
  rw [if_pos ⟨hp, hmode⟩]

/-- Witness for C6: a NaN price in preview mode short-circuits even though
every other field is present, against an environment whose fetch would
fail. -/
theorem handler_needs_price_witness :
    handler ⟨envNetFail, stripeUnused⟩ ⟨[], 0⟩ "POST"
        (some ⟨"preview", some "cs_1", "Auto (repair/body)", "90210", JSVal.nan⟩) =
      ⟨Response.okPreview ⟨"needs price", JSVal.num (1/2),
          "Add the total quoted price to get an under/fair/over signal."⟩, ⟨[], 0⟩, 0⟩ :=
  handler_needs_price ⟨envNetFail, stripeUnused⟩ ⟨[], 0⟩
    ⟨"preview", some "cs_1", "Auto (repair/body)", "90210", JSVal.nan⟩ rfl (by decide)

end FairPrice
